import Mathlib

/-!
Verification of the City Mitra complaint application core
(src/index.tsx) against its natural-language specification.

The embedding models, faithfully to the source:
- the record types (UserAccount, Complaint) and enumerations;
- the two browser-storage slots as an explicit three-case value
  (missing key / malformed JSON / a well-formed record list), since
  the source wraps each read in try/catch over JSON.parse;
- the user-directory operations handleRegister / handleLogin and the
  admin seeding performed inside getUsersFromStorage;
- the complaint operations submitComplaint (with the external
  classification call abstracted as an outcome parameter),
  updateStatus, and the filteredComplaints query.

Conventions: the spec's role names citizen/official correspond to the
source literals 'user'/'admin'. JavaScript string-or-undefined
fallback (x || d) is modelled by jsOrString, which also treats the
empty string as falsy, exactly as JavaScript does. Serialization is
modelled by the identity on well-formed lists: JSON.stringify followed
by JSON.parse reproduces these record shapes field-for-field.
-/

namespace CityMitra

/-- Complaint lifecycle label, source line 41. -/
inductive Status where
  | Pending
  | InProgress
  | Resolved
deriving DecidableEq, Repr

/-- Account role, source line 48: the source literals are the strings
'user' (spec: citizen) and 'admin' (spec: official). -/
inductive Role where
  | user
  | admin
deriving DecidableEq, Repr

/-- UserAccount record, source lines 44-49. -/
structure UserAccount where
  username : String
  password : String
  name : String
  role : Role
deriving DecidableEq, Repr

/-- A timestamped administrator remark, source line 61. -/
structure AdminComment where
  text : String
  date : Nat
deriving DecidableEq, Repr

/-- Complaint record, source lines 51-63. The urgency field is typed
Urgency in the source but is populated at runtime from an un-validated
JSON string, so it is modelled as String. -/
structure Complaint where
  id : String
  userId : String
  userName : String
  originalText : String
  englishText : String
  category : String
  urgency : String
  status : Status
  image : Option String
  adminComments : List AdminComment
  timestamp : Nat
deriving DecidableEq, Repr

/-- In-memory session, source lines 65-69. -/
structure UserSession where
  id : String
  role : Role
  name : String
deriving DecidableEq, Repr

/-- Content of one browser-storage slot as observed through
localStorage.getItem followed by JSON.parse: the key can be absent,
the stored string can fail to parse (JSON.parse throws, caught by the
try/catch in both readers), or it parses to a list of records. -/
inductive StoredSlot (α : Type) where
  | missing
  | malformed
  | wellFormed (items : List α)
deriving DecidableEq, Repr

/-- The hardcoded seed account, source line 88. -/
def defaultAdmin : UserAccount :=
  { username := "admin", password := "admin123", name := "Chief Administrator", role := Role.admin }

/-- The in-memory seeding step of getUsersFromStorage, source lines
90-92: push the seed when no record has username 'admin'. -/
def seedUsers (users : List UserAccount) : List UserAccount :=
  if (users.find? (fun u => u.username == "admin")).isSome then users else users ++ [defaultAdmin]

/-- getUsersFromStorage, source lines 84-97: a missing key reads as
the empty list which is then seeded; a parse failure returns the empty
list from the catch block, skipping the seeding; a well-formed list is
seeded. The function performs no write. -/
def getUsersFromStorage : StoredSlot UserAccount → List UserAccount
  | StoredSlot.missing => seedUsers []
  | StoredSlot.malformed => []
  | StoredSlot.wellFormed us => seedUsers us

/-- getComplaintsFromStorage, source lines 75-82. -/
def getComplaintsFromStorage : StoredSlot Complaint → List Complaint
  | StoredSlot.wellFormed cs => cs
  | _ => []

/-- saveComplaintsToStorage, source lines 99-101: overwrites the slot
with the serialized list (serialization modelled as identity on
well-formed content). -/
def saveComplaintsToStorage (cs : List Complaint) : StoredSlot Complaint :=
  StoredSlot.wellFormed cs

/-- saveUsersToStorage, source lines 103-105. -/
def saveUsersToStorage (us : List UserAccount) : StoredSlot UserAccount :=
  StoredSlot.wellFormed us

/-- The spec's ensureDefaultAdministrator is realised in the source
only by getUsersFromStorage, lines 84-97, which contains no
localStorage.setItem: in state-passing form the slot is returned
unchanged. -/
def ensureDefaultAdministrator (slot : StoredSlot UserAccount) :
    List UserAccount × StoredSlot UserAccount :=
  (getUsersFromStorage slot, slot)

/-- Outcome of handleRegister, source lines 165-185. -/
inductive RegisterResult where
  | duplicateUsername
  | registered
deriving DecidableEq, Repr

/-- handleRegister, source lines 165-185: load the directory, fail on
an existing username, otherwise append a role-'user' record (display
name falls back to the username when empty, the JavaScript
nameVal || userVal) and persist. -/
def handleRegister (slot : StoredSlot UserAccount) (userVal passVal nameVal : String) :
    RegisterResult × StoredSlot UserAccount :=
  let users := getUsersFromStorage slot
  if (users.find? (fun u => u.username == userVal)).isSome then
    (RegisterResult.duplicateUsername, slot)
  else
    let newUser : UserAccount :=
      { username := userVal, password := passVal,
        name := if nameVal == "" then userVal else nameVal, role := Role.user }
    (RegisterResult.registered, saveUsersToStorage (users ++ [newUser]))

/-- Outcome of handleLogin, source lines 187-206. accessDenied is the
distinct role-mismatch alert of line 194. -/
inductive LoginResult where
  | accessDenied (storedRole : Role)
  | invalidCredentials
  | loggedIn (session : UserSession)
deriving DecidableEq, Repr

/-- handleLogin, source lines 187-206: find the first record matching
username and password together; on a role mismatch fail distinctly,
otherwise start a session from the found record; when nothing matches,
report invalid credentials. -/
def handleLogin (slot : StoredSlot UserAccount) (userVal passVal : String)
    (loginRole : Role) : LoginResult :=
  let users := getUsersFromStorage slot
  match users.find? (fun u => u.username == userVal && u.password == passVal) with
  | some foundUser =>
      if foundUser.role ≠ loginRole then LoginResult.accessDenied foundUser.role
      else LoginResult.loggedIn
        { id := foundUser.username, role := foundUser.role, name := foundUser.name }
  | none => LoginResult.invalidCredentials

/-- Outcome of the classification call inside submitComplaint, source
lines 222-234, abstracting the single network round-trip:
callFailure is a rejected generateContent call; replyUnparseable is a
non-empty response.text on which JSON.parse throws (both throw inside
the same try block); replyParsed carries the translated and urgency
string fields of the parsed object, each possibly absent
(an absent or empty response.text parses the literal object text and
is replyParsed none none). Fields of non-string JSON type are outside
the model: the request instructs the service to return string fields. -/
inductive AdapterOutcome where
  | callFailure
  | replyUnparseable
  | replyParsed (translated urgency : Option String)
deriving DecidableEq, Repr

/-- JavaScript x || d for a string-or-undefined x: the empty string is
falsy, so it also falls back to the default. -/
def jsOrString : Option String → String → String
  | some s, d => if s == "" then d else s
  | none, d => d

/-- The slice of App component state that submitComplaint reads and
writes, source lines 141-153: the form text, selected category and
image, the session, the in-memory ledger and the persistent slot. -/
structure SubmitState where
  text : String
  selectedCat : String
  img : Option String
  currentUser : Option UserSession
  complaints : List Complaint
  complaintsSlot : StoredSlot Complaint
deriving DecidableEq, Repr

/-- submitComplaint, source lines 216-260. Guard: blank text or no
session is a no-op; the JavaScript !text.trim() test holds exactly
when every character of the text is whitespace, which is how it is
modelled here. A throw anywhere in the try block (the call itself or
JSON.parse of its reply) reaches the catch, which only alerts: the
state is returned unchanged. On a parsed reply the new complaint is
built with the JavaScript || fallbacks of lines 240 and 242,
prepended, persisted, and the form is cleared. The generated
identifier and Date.now() are nondeterministic inputs, passed as
parameters. -/
def submitComplaint (st : SubmitState) (outcome : AdapterOutcome)
    (newId : String) (now : Nat) : SubmitState :=
  match st.currentUser with
  | none => st
  | some cu =>
    if st.text.toList.all Char.isWhitespace then st
    else
      match outcome with
      | AdapterOutcome.callFailure => st
      | AdapterOutcome.replyUnparseable => st
      | AdapterOutcome.replyParsed translated urgency =>
          let newComplaint : Complaint :=
            { id := newId
              userId := cu.id
              userName := cu.name
              originalText := st.text
              englishText := jsOrString translated st.text
              category := st.selectedCat
              urgency := jsOrString urgency "Medium"
              status := Status.Pending
              image := st.img
              adminComments := []
              timestamp := now }
          let updated := newComplaint :: st.complaints
          { st with complaints := updated,
                    complaintsSlot := saveComplaintsToStorage updated,
                    text := "", img := none }

/-- updateStatus, source lines 262-266: map over the ledger replacing
the status of every record whose id matches, then persist the whole
collection. Returns the new in-memory ledger and the new slot. -/
def updateStatus (complaints : List Complaint) (id : String) (s : Status) :
    List Complaint × StoredSlot Complaint :=
  let updated := complaints.map (fun c => if c.id == id then { c with status := s } else c)
  (updated, saveComplaintsToStorage updated)

/-- Does a character list start with the pattern list. Support for the
JavaScript String.prototype.includes of source lines 279-280. -/
def charsStartWith : List Char → List Char → Bool
  | _, [] => true
  | [], _ :: _ => false
  | c :: l, d :: p => c == d && charsStartWith l p

/-- Does the pattern occur as a contiguous run of the character list.
Model of JavaScript includes; as in JavaScript, the empty pattern
occurs in every string. -/
def charsContain : List Char → List Char → Bool
  | [], p => charsStartWith [] p
  | c :: t, p => charsStartWith (c :: t) p || charsContain t p

/-- JavaScript s.toLowerCase(), as a character list: the character
list of the string with each character lowered. (String.toLower of
this toolchain is not kernel-reducible, so lowering is modelled
directly on the character list.) -/
def jsToLowerCase (s : String) : List Char :=
  s.toList.map Char.toLower

/-- filteredComplaints, source lines 277-286. The 'All' sentinel of the
Status | 'All' and Urgency | 'All' filter types is modelled as none;
the category filter is a plain string compared with the literal 'All',
as in the source. All four conditions are conjoined; List.filter keeps
the original order. -/
def filteredComplaints (complaints : List Complaint) (searchQuery : String)
    (statusFilter : Option Status) (urgencyFilter : Option String)
    (categoryFilter : String) : List Complaint :=
  complaints.filter (fun c =>
    (charsContain (jsToLowerCase c.id) (jsToLowerCase searchQuery)
      || charsContain (jsToLowerCase c.englishText) (jsToLowerCase searchQuery))
    && (match statusFilter with
        | none => true
        | some s => c.status == s)
    && (match urgencyFilter with
        | none => true
        | some u => c.urgency == u)
    && (categoryFilter == "All" || c.category == categoryFilter))

/-- One registration request, for stating the registration-sequence
invariant. -/
structure RegOp where
  username : String
  password : String
  name : String

/-- Run a sequence of registration requests against a storage slot,
keeping only the resulting slot, as successive handleRegister calls
each reload from storage. -/
def runRegisters (slot : StoredSlot UserAccount) (ops : List RegOp) :
    StoredSlot UserAccount :=
  ops.foldl (fun s op => (handleRegister s op.username op.password op.name).2) slot

/-- A stored record that occupies the username 'admin' with citizen
role, used as concrete input. -/
def citizenAdminUser : UserAccount :=
  { username := "admin", password := "pw", name := "Imposter", role := Role.user }

/-- A concrete submission-form state with non-blank text and an
authenticated citizen session. -/
def st0 : SubmitState :=
  { text := "road broken near market", selectedCat := "Roads", img := none,
    currentUser := some { id := "u1", role := Role.user, name := "Uma" },
    complaints := [], complaintsSlot := StoredSlot.missing }

/-- A concrete complaint record. -/
def dupA : Complaint :=
  { id := "CIT-0001", userId := "u1", userName := "Uma", originalText := "a",
    englishText := "a", category := "Roads", urgency := "Low",
    status := Status.Pending, image := none, adminComments := [], timestamp := 0 }

/-- A second concrete complaint record sharing dupA's identifier:
identifiers are drawn from a small random range (source line 236), so
the ledger can reach this shape by two submissions. -/
def dupB : Complaint :=
  { id := "CIT-0001", userId := "u2", userName := "Vik", originalText := "b",
    englishText := "b", category := "Water", urgency := "High",
    status := Status.Pending, image := none, adminComments := [], timestamp := 1 }

theorem charsStartWith_nil (l : List Char) : charsStartWith l [] = true := by
  cases l <;> rfl

theorem charsContain_nil (l : List Char) : charsContain l [] = true := by
  cases l <;> simp [charsContain, charsStartWith_nil]

theorem jsToLowerCase_empty : jsToLowerCase "" = [] := rfl

theorem charsContain_lower_empty (l : List Char) :
    charsContain l (jsToLowerCase "") = true := by
  rw [jsToLowerCase_empty]
  exact charsContain_nil l

theorem seedUsers_of_admin_mem (us : List UserAccount)
    (h : ∃ u ∈ us, u.username = "admin") : seedUsers us = us := by
  have hs : (us.find? (fun u => u.username == "admin")).isSome := by
    rw [List.find?_isSome]
    obtain ⟨u, hu, he⟩ := h
    exact ⟨u, hu, by simp [he]⟩
  simp [seedUsers, hs]

theorem seedUsers_of_admin_not_mem (us : List UserAccount)
    (h : ∀ u ∈ us, u.username ≠ "admin") : seedUsers us = us ++ [defaultAdmin] := by
  have hn : us.find? (fun u => u.username == "admin") = none := by
    rw [List.find?_eq_none]
    intro x hx
    simp [h x hx]
  simp [seedUsers, hn]

theorem admin_mem_seedUsers (us : List UserAccount) :
    ∃ u ∈ seedUsers us, u.username = "admin" := by
  unfold seedUsers
  cases hf : us.find? (fun u => u.username == "admin") with
  | some u =>
      refine ⟨u, ?_, ?_⟩
      · simp [hf, List.mem_of_find?_eq_some hf]
      · simpa using List.find?_some hf
  | none =>
      refine ⟨defaultAdmin, ?_, rfl⟩
      simp [hf]

theorem seedUsers_idem (us : List UserAccount) :
    seedUsers (seedUsers us) = seedUsers us :=
  seedUsers_of_admin_mem _ (admin_mem_seedUsers us)

theorem nodup_map_username_seedUsers (us : List UserAccount)
    (h : (us.map (fun u => u.username)).Nodup) :
    ((seedUsers us).map (fun u => u.username)).Nodup := by
  unfold seedUsers
  cases hf : us.find? (fun u => u.username == "admin") with
  | some u => simpa [hf] using h
  | none =>
      have hn : ∀ u ∈ us, u.username ≠ "admin" := by
        intro x hx
        simpa using List.find?_eq_none.mp hf x hx
      simp only [hf, Option.isSome_none, Bool.false_eq_true, if_false, List.map_append]
      rw [List.nodup_append]
      refine ⟨h, by simp, ?_⟩
      intro x hx hy
      rw [List.mem_map] at hx
      obtain ⟨b, hb, rfl⟩ := hx
      have hb2 : b.username = "admin" := by simpa using hy
      exact hn b hb hb2

theorem getUsers_save (us : List UserAccount) :
    getUsersFromStorage (saveUsersToStorage us) = seedUsers us := rfl

theorem nodup_usernames_register (slot : StoredSlot UserAccount) (u p n : String)
    (h : ((getUsersFromStorage slot).map (fun a => a.username)).Nodup) :
    ((getUsersFromStorage (handleRegister slot u p n).2).map (fun a => a.username)).Nodup := by
  unfold handleRegister
  cases hf : (getUsersFromStorage slot).find? (fun x => x.username == u) with
  | some a => simpa [hf] using h
  | none =>
      simp only [hf, Option.isSome_none, Bool.false_eq_true, if_false, getUsers_save]
      apply nodup_map_username_seedUsers
      rw [List.map_append, List.nodup_append]
      refine ⟨h, by simp, ?_⟩
      intro x hx hy
      rw [List.mem_map] at hx
      obtain ⟨b, hb, rfl⟩ := hx
      have hby : b.username = u := by simpa using hy
      have := List.find?_eq_none.mp hf b hb
      simp [hby] at this

theorem nodup_usernames_runRegisters (ops : List RegOp) (slot : StoredSlot UserAccount)
    (h : ((getUsersFromStorage slot).map (fun a => a.username)).Nodup) :
    ((getUsersFromStorage (runRegisters slot ops)).map (fun a => a.username)).Nodup := by
  induction ops generalizing slot with
  | nil => simpa [runRegisters] using h
  | cons op t ih =>
      have hstep := nodup_usernames_register slot op.username op.password op.name h
      simpa [runRegisters, List.foldl_cons] using ih _ hstep

theorem register_admin_duplicate (slot : StoredSlot UserAccount) (p n : String)
    (h : ∃ u ∈ getUsersFromStorage slot, u.username = "admin") :
    (handleRegister slot "admin" p n).1 = RegisterResult.duplicateUsername := by
  have hs : ((getUsersFromStorage slot).find? (fun u => u.username == "admin")).isSome := by
    rw [List.find?_isSome]
    obtain ⟨u, hu, he⟩ := h
    exact ⟨u, hu, by simp [he]⟩
  simp [handleRegister, hs]

/-- C2 counterexample: a well-formed stored collection holding a single
citizen-role record with identifier 'admin' loads with no official-role
account, so the seed is keyed on the identifier, not on the role;
malformed stored content loads as the empty collection with no seed at
all; and even when the seed is added (missing slot), the slot itself is
left unwritten, so the seeding is never persisted. -/
theorem C2_admin_seed_counterexample :
    (getUsersFromStorage (StoredSlot.wellFormed [citizenAdminUser])).all
        (fun a => a.role != Role.admin) = true ∧
    getUsersFromStorage StoredSlot.malformed = [] ∧
    (ensureDefaultAdministrator StoredSlot.missing).1 = [defaultAdmin] ∧
    (ensureDefaultAdministrator StoredSlot.missing).2 = StoredSlot.missing := by
  refine ⟨?_, rfl, rfl, rfl⟩
  decide

/-- C2 (amended): loading the user directory returns the stored
records unchanged exactly when some stored record has identifier
'admin' (role plays no part); malformed content loads as the empty
collection with no seed; a missing slot loads as exactly the seed
account; the in-memory seeding step is idempotent; and loading never
writes the directory back to storage. -/
theorem usersLoad_seeds_on_username_not_role (us : List UserAccount) :
    (getUsersFromStorage (StoredSlot.wellFormed us) = us ↔ ∃ u ∈ us, u.username = "admin") ∧
    getUsersFromStorage StoredSlot.malformed = [] ∧
    getUsersFromStorage StoredSlot.missing = [defaultAdmin] ∧
    seedUsers (seedUsers us) = seedUsers us ∧
    (ensureDefaultAdministrator (StoredSlot.wellFormed us)).2 = StoredSlot.wellFormed us := by
  refine ⟨⟨?_, ?_⟩, rfl, rfl, seedUsers_idem us, rfl⟩
  · intro he
    by_contra hno
    push_neg at hno
    have hs := seedUsers_of_admin_not_mem us hno
    rw [show getUsersFromStorage (StoredSlot.wellFormed us) = seedUsers us from rfl, hs] at he
    have := congrArg List.length he
    simp at this
  · exact seedUsers_of_admin_mem us

/-- C10: the default-administrator seed is keyed on the identifier
'admin', not on the role: a well-formed stored collection loads with
the seed appended exactly when no stored record has username 'admin';
a stored citizen-role record with username 'admin' suppresses the seed
and leaves the directory with no official-role account; and
registration of the username 'admin' always reports a duplicate, both
from a well-formed slot and from a missing one. -/
theorem admin_seed_keyed_on_username (us : List UserAccount) (p n : String) :
    (getUsersFromStorage (StoredSlot.wellFormed us) = us ++ [defaultAdmin] ↔
      ∀ u ∈ us, u.username ≠ "admin") ∧
    (∀ a ∈ getUsersFromStorage (StoredSlot.wellFormed [citizenAdminUser]),
      a.role = Role.user) ∧
    (handleRegister (StoredSlot.wellFormed us) "admin" p n).1 =
      RegisterResult.duplicateUsername ∧
    (handleRegister StoredSlot.missing "admin" p n).1 =
      RegisterResult.duplicateUsername := by
  refine ⟨⟨?_, ?_⟩, by decide, ?_, ?_⟩
  · intro he
    by_contra hno
    push_neg at hno
    obtain ⟨u, hu, hadmin⟩ := hno
    have hs := seedUsers_of_admin_mem us ⟨u, hu, hadmin⟩
    rw [show getUsersFromStorage (StoredSlot.wellFormed us) = seedUsers us from rfl, hs] at he
    have := congrArg List.length he
    simp at this
  · exact seedUsers_of_admin_not_mem us
  · exact register_admin_duplicate _ p n (admin_mem_seedUsers us)
  · exact register_admin_duplicate _ p n (admin_mem_seedUsers [])

/-- C7 counterexample: the save-then-load round trip fails for the
user store on a collection without the 'admin' identifier, because the
load appends the seed account: saving the empty user collection loads
back as the singleton seed. -/
theorem C7_roundtrip_counterexample :
    getUsersFromStorage (saveUsersToStorage []) = [defaultAdmin] ∧
    [defaultAdmin] ≠ ([] : List UserAccount) := ⟨rfl, by decide⟩

/-- C7 (amended): save followed by load is the identity for the
complaint store on every collection; for the user store it is the
identity exactly on collections already containing a record with
identifier 'admin', and otherwise returns the saved collection with
the seed account appended; on either store, malformed stored content
loads as the empty collection. -/
theorem store_roundtrip (cs : List Complaint) (us : List UserAccount) :
    getComplaintsFromStorage (saveComplaintsToStorage cs) = cs ∧
    ((∃ u ∈ us, u.username = "admin") →
      getUsersFromStorage (saveUsersToStorage us) = us) ∧
    ((∀ u ∈ us, u.username ≠ "admin") →
      getUsersFromStorage (saveUsersToStorage us) = us ++ [defaultAdmin]) ∧
    getComplaintsFromStorage StoredSlot.malformed = [] ∧
    getUsersFromStorage StoredSlot.malformed = [] := by
  refine ⟨rfl, ?_, ?_, rfl, rfl⟩
  · intro h
    rw [getUsers_save]
    exact seedUsers_of_admin_mem us h
  · intro h
    rw [getUsers_save]
    exact seedUsers_of_admin_not_mem us h

/-- C7 witness: the amended round trip evaluated on concrete
collections, one containing the 'admin' identifier and one without. -/
theorem store_roundtrip_witness :
    getUsersFromStorage (saveUsersToStorage [citizenAdminUser]) = [citizenAdminUser] ∧
    getUsersFromStorage (saveUsersToStorage []) = [] ++ [defaultAdmin] :=
  ⟨(store_roundtrip [] [citizenAdminUser]).2.1 ⟨citizenAdminUser, by simp, rfl⟩,
   (store_roundtrip [] []).2.2.1 (by simp)⟩

/-- C4: registration reports a duplicate exactly when the identifier
is already present in the loaded directory; otherwise it succeeds and
persists the directory extended by one record carrying the requested
username and role citizen ('user'); and along every sequence of
registrations from an empty store the loaded directory's usernames
remain pairwise distinct. -/
theorem register_unique_usernames (slot : StoredSlot UserAccount) (u p n : String)
    (ops : List RegOp) :
    ((handleRegister slot u p n).1 = RegisterResult.duplicateUsername ↔
      ∃ a ∈ getUsersFromStorage slot, a.username = u) ∧
    ((∀ a ∈ getUsersFromStorage slot, a.username ≠ u) →
      ∃ acct : UserAccount, acct.username = u ∧ acct.role = Role.user ∧
        (handleRegister slot u p n).1 = RegisterResult.registered ∧
        (handleRegister slot u p n).2 =
          saveUsersToStorage (getUsersFromStorage slot ++ [acct])) ∧
    ((getUsersFromStorage (runRegisters StoredSlot.missing ops)).map
        (fun a => a.username)).Nodup := by
  refine ⟨?_, ?_, ?_⟩
  · cases hf : (getUsersFromStorage slot).find? (fun x => x.username == u) with
    | some a =>
        simp only [handleRegister, hf, Option.isSome_some, if_true]
        constructor
        · intro _
          exact ⟨a, List.mem_of_find?_eq_some hf, by simpa using List.find?_some hf⟩
        · intro _
          trivial
    | none =>
        simp only [handleRegister, hf, Option.isSome_none, Bool.false_eq_true, if_false]
        constructor
        · intro he
          cases he
        · rintro ⟨a, ha, he⟩
          have := List.find?_eq_none.mp hf a ha
          simp [he] at this
  · intro h
    have hf : (getUsersFromStorage slot).find? (fun x => x.username == u) = none := by
      rw [List.find?_eq_none]
      intro x hx
      simp [h x hx]
    refine ⟨{ username := u, password := p, name := if n == "" then u else n,
              role := Role.user }, rfl, rfl, ?_, ?_⟩
    · simp [handleRegister, hf]
    · simp [handleRegister, hf]
  · exact nodup_usernames_runRegisters ops StoredSlot.missing (by decide)

/-- C4 witness: registering a fresh username against the empty store
succeeds and appends one citizen record. -/
theorem register_unique_usernames_witness :
    ∃ acct : UserAccount, acct.username = "bob" ∧ acct.role = Role.user ∧
      (handleRegister StoredSlot.missing "bob" "pw" "Bob").1 = RegisterResult.registered ∧
      (handleRegister StoredSlot.missing "bob" "pw" "Bob").2 =
        saveUsersToStorage (getUsersFromStorage StoredSlot.missing ++ [acct]) :=
  (register_unique_usernames StoredSlot.missing "bob" "pw" "Bob" []).2.1 (by decide)

/-- C8: authentication looks the caller up by identifier and secret
together; when nothing matches it reports invalid credentials; when
the first match carries a role different from the claimed one it
reports the distinct role-mismatch error holding the stored role; and
on a matching role it returns a session built from the matched
account's identifier, role and display name. -/
theorem login_characterization (slot : StoredSlot UserAccount) (u p : String) (r : Role) :
    ((∀ a ∈ getUsersFromStorage slot, ¬(a.username = u ∧ a.password = p)) →
      handleLogin slot u p r = LoginResult.invalidCredentials) ∧
    (∀ a : UserAccount, (getUsersFromStorage slot).find?
        (fun x => x.username == u && x.password == p) = some a →
      (a.role ≠ r → handleLogin slot u p r = LoginResult.accessDenied a.role) ∧
      (a.role = r → handleLogin slot u p r =
        LoginResult.loggedIn { id := a.username, role := a.role, name := a.name })) := by
  constructor
  · intro h
    have hf : (getUsersFromStorage slot).find?
        (fun x => x.username == u && x.password == p) = none := by
      rw [List.find?_eq_none]
      intro x hx
      simpa using h x hx
    simp [handleLogin, hf]
  · intro a hf
    constructor
    · intro hne
      simp [handleLogin, hf, hne]
    · intro heq
      simp [handleLogin, hf, heq]

/-- C8 witness: against a directory whose only record is the
citizen-role 'admin' account, an official-role login attempt with the
right secret is denied with the distinct role-mismatch error, while a
wrong identifier yields invalid credentials. -/
theorem login_characterization_witness :
    handleLogin (StoredSlot.wellFormed [citizenAdminUser]) "admin" "pw" Role.admin =
      LoginResult.accessDenied Role.user ∧
    handleLogin (StoredSlot.wellFormed [citizenAdminUser]) "nobody" "x" Role.user =
      LoginResult.invalidCredentials :=
  ⟨((login_characterization (StoredSlot.wellFormed [citizenAdminUser]) "admin" "pw"
        Role.admin).2 citizenAdminUser (by decide)).1 (by decide),
   (login_characterization (StoredSlot.wellFormed [citizenAdminUser]) "nobody" "x"
        Role.user).1 (by decide)⟩

theorem submit_callFailure_eq (st : SubmitState) (newId : String) (now : Nat) :
    submitComplaint st AdapterOutcome.callFailure newId now = st := by
  unfold submitComplaint
  cases st.currentUser <;> simp

theorem submit_unparseable_eq (st : SubmitState) (newId : String) (now : Nat) :
    submitComplaint st AdapterOutcome.replyUnparseable newId now = st := by
  unfold submitComplaint
  cases st.currentUser <;> simp

theorem beq_false_of_ne {α : Type} [BEq α] [LawfulBEq α] {a b : α} (h : a ≠ b) :
    (a == b) = false := by
  cases hb : a == b with
  | false => rfl
  | true => exact absurd (eq_of_beq hb) h

theorem submit_success_eq (st : SubmitState) (cu : UserSession) (t u : Option String)
    (newId : String) (now : Nat) (hu : st.currentUser = some cu)
    (ht : st.text.toList.all Char.isWhitespace = false) :
    submitComplaint st (AdapterOutcome.replyParsed t u) newId now =
      { st with
        complaints :=
          { id := newId, userId := cu.id, userName := cu.name, originalText := st.text,
            englishText := jsOrString t st.text, category := st.selectedCat,
            urgency := jsOrString u "Medium", status := Status.Pending, image := st.img,
            adminComments := [], timestamp := now } :: st.complaints,
        complaintsSlot := saveComplaintsToStorage
          ({ id := newId, userId := cu.id, userName := cu.name, originalText := st.text,
             englishText := jsOrString t st.text, category := st.selectedCat,
             urgency := jsOrString u "Medium", status := Status.Pending, image := st.img,
             adminComments := [], timestamp := now } :: st.complaints),
        text := "", img := none } := by
  simp only [submitComplaint, hu, ht, Bool.false_eq_true, if_false]

theorem forall₂_map_self {α : Type} (f : α → α) (l : List α) :
    List.Forall₂ (fun a b => b = f a) l (l.map f) := by
  induction l with
  | nil => exact List.Forall₂.nil
  | cons a t ih => exact List.Forall₂.cons rfl ih

/-- C1 counterexample: when the adapter's reply carries a present but
empty translated field, the created complaint's englishText is the
original submitted text, not the adapter's (empty) translated text,
because the JavaScript || fallback also fires on the empty string. -/
theorem C1_translated_empty_counterexample :
    ((submitComplaint st0 (AdapterOutcome.replyParsed (some "") (some "High"))
        "CIT-0001" 5).complaints.map (fun c => c.englishText)) =
      ["road broken near market"] ∧
    ("road broken near market" : String) ≠ "" := by
  refine ⟨rfl, by decide⟩

/-- C1 (amended): for every submission where the classification call
succeeds with a parsed reply, the created complaint has status
Pending, an empty remark sequence, the caller's category, englishText
equal to the adapter's translated text when that field is present and
non-empty (the original submitted text otherwise), urgency equal to
the adapter's urgency when present and non-empty (Medium otherwise),
and is prepended to the front of the ledger, which is then
persisted. -/
theorem submit_success_creates_pending (st : SubmitState) (cu : UserSession)
    (t u : Option String) (newId : String) (now : Nat)
    (hu : st.currentUser = some cu)
    (ht : st.text.toList.all Char.isWhitespace = false) :
    ∃ c : Complaint,
      (submitComplaint st (AdapterOutcome.replyParsed t u) newId now).complaints =
        c :: st.complaints ∧
      (submitComplaint st (AdapterOutcome.replyParsed t u) newId now).complaintsSlot =
        saveComplaintsToStorage (c :: st.complaints) ∧
      c.status = Status.Pending ∧
      c.adminComments = [] ∧
      c.category = st.selectedCat ∧
      c.originalText = st.text ∧
      c.userId = cu.id ∧
      c.userName = cu.name ∧
      c.id = newId ∧
      c.timestamp = now ∧
      ((t = none ∨ t = some "") → c.englishText = st.text) ∧
      (∀ s, t = some s → s ≠ "" → c.englishText = s) ∧
      ((u = none ∨ u = some "") → c.urgency = "Medium") ∧
      (∀ s, u = some s → s ≠ "" → c.urgency = s) := by
  have he := submit_success_eq st cu t u newId now hu ht
  refine ⟨{ id := newId, userId := cu.id, userName := cu.name, originalText := st.text,
            englishText := jsOrString t st.text, category := st.selectedCat,
            urgency := jsOrString u "Medium", status := Status.Pending, image := st.img,
            adminComments := [], timestamp := now },
          by rw [he], by rw [he], rfl, rfl, rfl, rfl, rfl, rfl, rfl, rfl, ?_, ?_, ?_, ?_⟩
  · rintro (h | h) <;> simp [h, jsOrString]
  · intro s hs hne
    simp [hs, jsOrString, beq_false_of_ne hne]
  · rintro (h | h) <;> simp [h, jsOrString]
  · intro s hs hne
    simp [hs, jsOrString, beq_false_of_ne hne]

/-- C1 witness: the amended theorem applied to a concrete submission
whose classification reply is the worked spec scenario. -/
theorem submit_success_creates_pending_witness :
    (submitComplaint st0 (AdapterOutcome.replyParsed
        (some "Road is broken near the market") (some "High")) "CIT-0001" 5).complaints.length
      = 1 := by
  obtain ⟨c, hc, -⟩ := submit_success_creates_pending st0
    { id := "u1", role := Role.user, name := "Uma" }
    (some "Road is broken near the market") (some "High") "CIT-0001" 5 rfl (by decide)
  rw [hc]
  rfl

/-- C3: a classification failure (a rejected call, or a throw while
parsing its reply) aborts the submission with the entire state
unchanged, so the ledger gains no record, nothing new is persisted and
the input text is preserved; a successful parsed reply clears the
input text. -/
theorem submit_failure_aborts (st : SubmitState) (newId : String) (now : Nat) :
    submitComplaint st AdapterOutcome.callFailure newId now = st ∧
    submitComplaint st AdapterOutcome.replyUnparseable newId now = st ∧
    (∀ cu t u, st.currentUser = some cu →
      st.text.toList.all Char.isWhitespace = false →
      (submitComplaint st (AdapterOutcome.replyParsed t u) newId now).text = "") := by
  refine ⟨submit_callFailure_eq st newId now, submit_unparseable_eq st newId now, ?_⟩
  intro cu t u hcu ht
  rw [submit_success_eq st cu t u newId now hcu ht]

/-- C3 witness: a concrete failing submission leaves the concrete
state untouched, and the matching successful submission clears the
text field. -/
theorem submit_failure_aborts_witness :
    submitComplaint st0 AdapterOutcome.callFailure "CIT-0001" 5 = st0 ∧
    (submitComplaint st0 (AdapterOutcome.replyParsed none none) "CIT-0001" 5).text = "" :=
  ⟨(submit_failure_aborts st0 "CIT-0001" 5).1,
   (submit_failure_aborts st0 "CIT-0001" 5).2.2 { id := "u1", role := Role.user, name := "Uma" }
      none none rfl (by decide)⟩

/-- C9 counterexample: with a valid session and non-blank text, a
structurally unparseable reply leaves the ledger empty: the submission
is aborted rather than completed with the fallback record. -/
theorem C9_unparseable_counterexample :
    (submitComplaint st0 AdapterOutcome.replyUnparseable "CIT-0001" 5).complaints = [] ∧
    st0.text.toList.all Char.isWhitespace = false ∧
    st0.currentUser.isSome = true := by
  refine ⟨rfl, by decide, rfl⟩

/-- C9 (amended): a reply whose text is absent or empty, or whose
parsed object lacks the expected fields, completes the submission with
the fallback record (original text as English text, Medium urgency);
but a reply whose text is present and structurally unparseable makes
JSON.parse throw inside the same try block, so the submission is
aborted exactly like a call failure, with the state unchanged. -/
theorem unparseable_reply_aborts (st : SubmitState) (newId : String) (now : Nat) :
    submitComplaint st AdapterOutcome.replyUnparseable newId now = st ∧
    (∀ cu, st.currentUser = some cu →
      st.text.toList.all Char.isWhitespace = false →
      ∃ c : Complaint,
        (submitComplaint st (AdapterOutcome.replyParsed none none) newId now).complaints =
          c :: st.complaints ∧
        c.englishText = st.text ∧ c.urgency = "Medium" ∧ c.status = Status.Pending) := by
  refine ⟨submit_unparseable_eq st newId now, ?_⟩
  intro cu hcu ht
  have he := submit_success_eq st cu none none newId now hcu ht
  exact ⟨_, by rw [he], rfl, rfl, rfl⟩

/-- C9 witness: the amended theorem evaluated on a concrete state, for
both the aborting and the fallback branch. -/
theorem unparseable_reply_aborts_witness :
    submitComplaint st0 AdapterOutcome.replyUnparseable "CIT-0001" 5 = st0 ∧
    ∃ c : Complaint,
      (submitComplaint st0 (AdapterOutcome.replyParsed none none) "CIT-0001" 5).complaints =
        c :: st0.complaints ∧
      c.englishText = st0.text ∧ c.urgency = "Medium" ∧ c.status = Status.Pending :=
  ⟨(unparseable_reply_aborts st0 "CIT-0001" 5).1,
   (unparseable_reply_aborts st0 "CIT-0001" 5).2
      { id := "u1", role := Role.user, name := "Uma" } rfl (by decide)⟩

/-- C5 counterexample: on a ledger holding two records that share an
identifier, updateStatus rewrites the status of both, so a record
other than "that record" is changed as well. -/
theorem C5_duplicate_id_counterexample :
    ((updateStatus [dupA, dupB] "CIT-0001" Status.Resolved).1.map (fun c => c.status)) =
      [Status.Resolved, Status.Resolved] ∧
    dupB.id = dupA.id ∧
    dupB.status = Status.Pending := ⟨rfl, rfl, rfl⟩

/-- C5 (amended): updateStatus on an id absent from the ledger returns
the ledger unchanged (and persists it); in general it replaces the
status of every record whose id matches, leaving each record's other
fields, all records with a different id, and the order unchanged; and
the resulting collection is persisted as a whole. -/
theorem updateStatus_frame (cs : List Complaint) (id : String) (s : Status) :
    ((∀ c ∈ cs, c.id ≠ id) → updateStatus cs id s = (cs, saveComplaintsToStorage cs)) ∧
    List.Forall₂ (fun c c2 =>
        (c.id = id → c2 = { c with status := s }) ∧ (c.id ≠ id → c2 = c))
      cs (updateStatus cs id s).1 ∧
    (updateStatus cs id s).2 = saveComplaintsToStorage (updateStatus cs id s).1 := by
  refine ⟨?_, ?_, rfl⟩
  · intro h
    have hm : cs.map (fun c => if c.id == id then { c with status := s } else c) = cs := by
      conv_rhs => rw [← List.map_id cs]
      apply List.map_congr_left
      intro a ha
      simp [beq_false_of_ne (h a ha)]
    simp only [updateStatus]
    rw [hm]
  · have h2 := forall₂_map_self
      (fun c => if c.id == id then { c with status := s } else c) cs
    refine h2.imp ?_
    intro a b hb
    subst hb
    constructor
    · intro hid
      simp [hid]
    · intro hid
      simp [beq_false_of_ne hid]

/-- C5 witness: updating an absent id on a concrete one-record ledger
returns it unchanged and persists it. -/
theorem updateStatus_frame_witness :
    updateStatus [dupA] "CIT-9999" Status.Resolved = ([dupA], saveComplaintsToStorage [dupA]) :=
  (updateStatus_frame [dupA] "CIT-9999" Status.Resolved).1 (by decide)

/-- C6: the dashboard query returns exactly the complaints, in the
ledger's original order, satisfying the conjunction of a
case-insensitive substring match of the search text against the
identifier or the English text, and exact equality for each of the
status, urgency and category filters whenever that filter is not at
its 'All' setting; with the empty search text and all three filters at
'All' it returns the full ledger unmodified. -/
theorem query_characterization (cs : List Complaint) (q : String)
    (sf : Option Status) (uf : Option String) (cf : String) :
    (∀ c : Complaint, c ∈ filteredComplaints cs q sf uf cf ↔
      (c ∈ cs ∧
        (charsContain (jsToLowerCase c.id) (jsToLowerCase q) = true ∨
          charsContain (jsToLowerCase c.englishText) (jsToLowerCase q) = true) ∧
        (∀ s, sf = some s → c.status = s) ∧
        (∀ u, uf = some u → c.urgency = u) ∧
        (cf ≠ "All" → c.category = cf))) ∧
    (filteredComplaints cs q sf uf cf).Sublist cs ∧
    filteredComplaints cs "" none none "All" = cs := by
  refine ⟨?_, List.filter_sublist cs, ?_⟩
  · intro c
    rw [filteredComplaints, List.mem_filter]
    cases sf <;> cases uf <;> by_cases hcf : cf = "All" <;>
      simp [hcf, and_assoc]
  · rw [filteredComplaints]
    rw [List.filter_eq_self]
    intro c hc
    simp [charsContain_lower_empty]

/-- C6 witness: the query at its no-constraint settings on a concrete
one-record ledger returns that ledger unmodified. -/
theorem query_characterization_witness :
    filteredComplaints [dupA] "" none none "All" = [dupA] :=
  (query_characterization [dupA] "" none none "All").2.2

end CityMitra
